import Mathlib

/-!
Shallow embedding of the MovieAI repository's feature-preprocessing
pipeline (src/backend/data/Movie_dataset/movies_preprocessing.py), the
emotion adapter (src/backend/emotion_analysis.py) and the recommendation
engine (the `MovieRecommender` class defined in src/backend/utils.py,
with `recommend_by_emotion`, the in-memory poster cache and the
TMDB poster lookup).

Numeric cells are modelled as rationals (pandas floats are treated as
exact arithmetic); a missing cell (NaN) is `Option.none`.
-/

namespace MovieAI

/-! ## Corpus statistics (pandas `mean`, `median`, `quantile`) -/

/-- Arithmetic mean of a list of rationals (`Series.mean` over the
non-missing values; the empty list gives 0, a case the pipeline never
hits on a non-empty corpus). -/
def mean (l : List ℚ) : ℚ := l.sum / l.length

/-- Insert into an ascending list, keeping it ascending. -/
def insort (x : ℚ) : List ℚ → List ℚ
  | [] => [x]
  | y :: ys => if x ≤ y then x :: y :: ys else y :: insort x ys

/-- Ascending sort (insertion sort; the sorted value sequence is what
pandas' order statistics read, and it is unique for a given multiset). -/
def sortAsc (l : List ℚ) : List ℚ := l.foldr insort []

/-- `Series.median`: middle element of the sorted values for odd length,
average of the two middle elements for even length. -/
def median (l : List ℚ) : ℚ :=
  let s := sortAsc l
  let n := s.length
  if n % 2 = 1 then s.getD (n / 2) 0
  else (s.getD (n / 2 - 1) 0 + s.getD (n / 2) 0) / 2

/-- `Series.quantile(q)` with pandas' default linear interpolation:
with sorted values `s` of length `n`, position `h = (n-1)*q`,
result `s[⌊h⌋] + (h - ⌊h⌋) * (s[⌊h⌋+1] - s[⌊h⌋])`. -/
def quantile (q : ℚ) (l : List ℚ) : ℚ :=
  let s := sortAsc l
  let n := s.length
  let h : ℚ := ((n : ℚ) - 1) * q
  let lo : ℕ := (Int.floor h).toNat
  let x0 := s.getD lo 0
  let x1 := s.getD (lo + 1) x0
  x0 + (h - (lo : ℚ)) * (x1 - x0)

/-! ## Weighted rating (movies_preprocessing.py, lines 71-82)

`C = df['vote_average'].mean()`, `m = df['vote_count'].quantile(0.80)`,
and per row `weighted_rating` blends the row's rating with `C`. -/

/-- A row at the point where `weighted_rating` runs: `vote_count` and
`vote_average` are already numeric (coerced and mean-imputed upstream). -/
structure VoteRow where
  vote_count : ℚ
  vote_average : ℚ
  deriving DecidableEq

/-- `weighted_rating(row, m, C)` from movies_preprocessing.py. -/
def weighted_rating (m C : ℚ) (row : VoteRow) : ℚ :=
  if row.vote_count = 0 then C
  else (row.vote_count / (row.vote_count + m)) * row.vote_average
       + (m / (row.vote_count + m)) * C

/-- `df['weighted_vote'] = df.apply(weighted_rating, axis=1)` with
`C` the corpus mean rating and `m` the 80th-percentile vote count. -/
def weighted_vote_column (rows : List VoteRow) : List ℚ :=
  let C := mean (rows.map (·.vote_average))
  let m := quantile (4/5) (rows.map (·.vote_count))
  rows.map (weighted_rating m C)

/-! ## movie_age derivation and correction (lines 56-62, 64-68)

`ages0` holds `current_year - release_year` per row, `none` where the
release date failed to parse.  Line 61 fills missing ages with the
median of the parsed ages; line 62 then overwrites negative ages with
the median of the column as it stands after that fill. -/

/-- Median of the parsed (non-missing) ages: the scalar
`df['movie_age'].median()` evaluated at line 61, where missing entries
are skipped by pandas. -/
def median_parsed_ages (ages0 : List (Option ℚ)) : ℚ :=
  median (ages0.filterMap id)

/-- Line 61: `df['movie_age'] = df['movie_age'].fillna(df['movie_age'].median())`. -/
def fill_missing_ages (ages0 : List (Option ℚ)) : List ℚ :=
  ages0.map (fun a => a.getD (median_parsed_ages ages0))

/-- The scalar `df['movie_age'].median()` evaluated at line 62, i.e. the
median of the already-filled column, negative entries included. -/
def median_filled_ages (ages0 : List (Option ℚ)) : ℚ :=
  median (fill_missing_ages ages0)

/-- Line 62: `df.loc[df['movie_age'] < 0, 'movie_age'] = df['movie_age'].median()`. -/
def corrected_ages (ages0 : List (Option ℚ)) : List ℚ :=
  (fill_missing_ages ages0).map
    (fun a => if a < 0 then median_filled_ages ages0 else a)

/-- Spec's reading of the replacement median: the corpus median computed
only over the valid, non-negative ages.  Stated from the spec's words to
compare against the code's `median_filled_ages` / `median_parsed_ages`. -/
def median_valid_nonneg_ages (ages0 : List (Option ℚ)) : ℚ :=
  median ((ages0.filterMap id).filter (fun a => 0 ≤ a))

/-- Population variance, `Var(l) = mean((x - mean l)^2)`; sklearn's
`StandardScaler` scales by its square root. -/
def popVariance (l : List ℚ) : ℚ :=
  mean (l.map (fun x => (x - mean l) * (x - mean l)))

/-- Line 68 for the `movie_age` column: z-scoring by `StandardScaler`.
The scale `sigma` is passed explicitly; theorems about this definition
constrain it by `sigma ^ 2 = popVariance (corrected_ages ages0)` and
`0 < sigma`, which pins it to the standard deviation sklearn uses while
keeping the definition executable over ℚ. -/
def standardized_ages (ages0 : List (Option ℚ)) (sigma : ℚ) : List ℚ :=
  let ages2 := corrected_ages ages0
  ages2.map (fun x => (x - mean ages2) / sigma)

/-! ## String helpers

Python's `str.strip()` and `str.lower()`, modelled directly on the
character list so that concrete instances evaluate. -/

/-- Python `str.strip()`: drop leading and trailing whitespace. -/
def pyStrip (s : String) : String :=
  String.mk
    ((((s.toList.dropWhile Char.isWhitespace).reverse).dropWhile
        Char.isWhitespace).reverse)

/-- Python `str.lower()` (ASCII case folding). -/
def pyLower (s : String) : String := String.mk (s.toList.map Char.toLower)

/-! ## Emotion adapter (src/backend/emotion_analysis.py) -/

/-- First-match lookup in an association list keyed by strings
(Python `dict.get`: the dict literals here have distinct keys, so
first-match agrees with the dict). -/
def lookupKey {α : Type} (m : List (String × α)) (k : String) : Option α :=
  (m.find? (fun p => p.1 == k)).map (·.2)

/-- `EMOTION_TO_MOOD` from emotion_analysis.py. -/
def EMOTION_TO_MOOD : List (String × String) :=
  [("joy", "happy"), ("anger", "intense"), ("sadness", "sad"),
   ("fear", "scary"), ("neutral", "cozy"), ("surprise", "thrilling"),
   ("disgust", "intense")]

/-- `f"{score:.3f}"`: fixed three-decimal rendering of the confidence
(scores lie in [0,1]; rounding of exact halves approximates Python's
binary-float formatting). -/
def format_score_3dp (q : ℚ) : String :=
  let n : ℤ := ⌊q * 1000 + 1/2⌋
  let whole := n.tdiv 1000
  let frac := (n.tmod 1000).natAbs
  let fs := toString frac
  let pad := String.mk (List.replicate (3 - fs.length) '0')
  toString whole ++ "." ++ pad ++ fs

/-- Result of `detect_emotion_and_mood`. -/
structure EmotionResult where
  raw_emotion : String
  score : String
  mood : String
  deriving DecidableEq

/-- `detect_emotion_and_mood(text)` from emotion_analysis.py.  The
external classifier (`_get_emotion_pipeline()` followed by `pipe(text)[0]`)
is the parameter `classify`, returning the top label and its score; the
returned Bool records whether that handle was constructed and invoked. -/
def detect_emotion_and_mood (classify : String → String × ℚ) (text : String) :
    EmotionResult × Bool :=
  if pyStrip text = "" then
    ({ raw_emotion := "neutral", score := "0.0", mood := "cozy" }, false)
  else
    let r := classify text
    let raw := pyLower r.1
    ({ raw_emotion := raw, score := format_score_3dp r.2,
       mood := (lookupKey EMOTION_TO_MOOD raw).getD "cozy" }, true)

/-! ## Recommendation engine (src/backend/utils.py, class MovieRecommender) -/

/-- `https://image.tmdb.org/t/p/w500`, the poster URL base. -/
def TMDB_IMAGE_BASE : String := "https://image.tmdb.org/t/p/w500"

/-- Python truthiness of the `TMDB_API_KEY` value (`if not TMDB_API_KEY`):
unset (`None`) and the empty string are both falsy. -/
def key_configured : Option String → Bool
  | none => false
  | some s => s != ""

/-- One entry of the `results` list of a TMDB search response. -/
structure TMDBResult where
  poster_path : Option String
  deriving DecidableEq

/-- A decoded TMDB search response (`data.get("results") or []` yields
`results`; a missing or null key is the empty list). -/
structure TMDBResponse where
  results : List TMDBResult
  deriving DecidableEq

/-- Outcome of the HTTP search call: `Except.error` covers a non-2xx
status (`raise_for_status`), a timeout, or malformed JSON. -/
abbrev HttpOutcome := Except String TMDBResponse

/-- `MovieRecommender._fetch_tmdb_poster_url` (utils.py lines 166-194):
no configured key short-circuits to `None` before any request; the
`try/except Exception` turns every failed call into `None`; otherwise
the first result's `poster_path` (if truthy) becomes a full URL. -/
def fetch_tmdb_poster_url (api_key : Option String) (outcome : HttpOutcome) :
    Option String :=
  if key_configured api_key = false then none
  else
    match outcome with
    | .error _ => none
    | .ok data =>
      match data.results with
      | [] => none
      | r :: _ =>
        match r.poster_path with
        | some p => if p == "" then none else some (TMDB_IMAGE_BASE ++ p)
        | none => none

/-- A row of the engine's merged table (`self.movies`): `title_clean` is
the normalized title, `poster_path` the cleaned metadata poster path,
`val` the numeric columns (genre indicators among them). -/
structure MovieRow where
  title : String
  title_clean : String
  poster_path : Option String
  overview : Option String
  val : String → ℚ

/-- The merged table together with its column set (`self.movies.columns`),
consulted by the `if g in self.movies.columns` guard. -/
structure MovieTable where
  cols : List String
  rows : List MovieRow

/-- `self.poster_cache`: normalized title ↦ poster URL or `None`. -/
abbrev PosterCache := List (String × Option String)

/-- `title_key in self.poster_cache` / `self.poster_cache[title_key]`:
the most recent binding wins, as for a Python dict. -/
def cache_lookup (c : PosterCache) (k : String) : Option (Option String) :=
  (c.find? (fun p => p.1 == k)).map (·.2)

/-- `self.poster_cache[title_key] = url`. -/
def cache_insert (c : PosterCache) (k : String) (v : Option String) : PosterCache :=
  (k, v) :: c

/-- The body of the poster loop in `recommend_by_emotion` for one sampled
row (utils.py lines 212-232): cache hit, else metadata poster path, else
TMDB lookup; the Bool records whether an HTTP request was issued
(`requests.get` runs only in the third branch and only with a key). -/
def resolve_poster (net : String → HttpOutcome) (api_key : Option String)
    (cache : PosterCache) (row : MovieRow) :
    Option String × PosterCache × Bool :=
  match cache_lookup cache row.title_clean with
  | some v => (v, cache, false)
  | none =>
    match row.poster_path with
    | some p =>
      let url := TMDB_IMAGE_BASE ++ p
      (some url, cache_insert cache row.title_clean (some url), false)
    | none =>
      let u := fetch_tmdb_poster_url api_key (net row.title)
      (u, cache_insert cache row.title_clean u, key_configured api_key)

/-- The poster loop over the whole sample, threading the cache; returns
each row's poster URL with its HTTP flag, and the final cache. -/
def resolve_posters (net : String → HttpOutcome) (api_key : Option String) :
    PosterCache → List MovieRow → List (Option String × Bool) × PosterCache
  | cache, [] => ([], cache)
  | cache, row :: rest =>
    let r := resolve_poster net api_key cache row
    let out := resolve_posters net api_key r.2.1 rest
    ((r.1, r.2.2) :: out.1, out.2)

/-- `GENRE_COLUMNS` from utils.py. -/
def GENRE_COLUMNS : List String :=
  ["Action", "Adventure", "Animation", "Comedy", "Crime", "Documentary",
   "Drama", "Family", "Fantasy", "History", "Horror", "Music", "Mystery",
   "Romance", "Science Fiction", "TV Movie", "Thriller", "War", "Western"]

/-- `EMOTION_GENRE_MAP` from utils.py. -/
def EMOTION_GENRE_MAP : List (String × List String) :=
  [("happy", ["Comedy", "Adventure", "Family", "Animation", "Fantasy", "Romance"]),
   ("sad", ["Drama", "Music", "Documentary"]),
   ("excited", ["Action", "Science Fiction", "Thriller", "War"]),
   ("relaxed", ["Romance", "Family", "Comedy"]),
   ("scared", ["Horror", "Mystery", "Thriller"])]

/-- The genre mask of `recommend_by_emotion` (lines 200-203) applied to
one row: some mapped genre is a column of the table and its indicator
is 1 in this row. -/
def row_matches (cols : List String) (genres : List String) (row : MovieRow) : Bool :=
  genres.any (fun g => cols.contains g && (row.val g == 1))

/-- `emotion.lower().strip()` followed by
`self.EMOTION_GENRE_MAP.get(emotion, ["Drama"])`. -/
def mapped_genres (emotion : String) : List String :=
  (lookupKey EMOTION_GENRE_MAP (pyStrip (pyLower emotion))).getD ["Drama"]

/-- A returned record: the sampled row plus its `poster_url` column. -/
structure RecResult where
  row : MovieRow
  poster_url : Option String

/-- `recommend_by_emotion` after the genre list is fixed: filter by the
mask, return the empty frame unchanged if nothing matches, otherwise
sample `min(n_results, len(movies))` rows and run the poster loop.
`pandas.sample` draws without replacement in random order; it is
modelled by an arbitrary reordering `shuffle` of the filtered rows
(theorems assume `shuffle l` is a permutation of `l`) followed by
`take`. -/
def recommend_with_genres (net : String → HttpOutcome) (api_key : Option String)
    (shuffle : List MovieRow → List MovieRow) (table : MovieTable)
    (cache : PosterCache) (genres : List String) (n : ℕ) :
    List RecResult × PosterCache :=
  let filtered := table.rows.filter (row_matches table.cols genres)
  if filtered.isEmpty then ([], cache)
  else
    let sample := (shuffle filtered).take (min n filtered.length)
    let res := resolve_posters net api_key cache sample
    ((sample.zip res.1).map (fun p => ⟨p.1, p.2.1⟩), res.2)

/-- `MovieRecommender.recommend_by_emotion(emotion, n_results)`
(utils.py lines 196-235). -/
def recommend_by_emotion (net : String → HttpOutcome) (api_key : Option String)
    (shuffle : List MovieRow → List MovieRow) (table : MovieTable)
    (cache : PosterCache) (emotion : String) (n : ℕ) :
    List RecResult × PosterCache :=
  recommend_with_genres net api_key shuffle table cache (mapped_genres emotion) n

/-! ## Engine construction (utils.py `MovieRecommender.__init__`, lines 113-158)

The preprocessed table is left-merged with the metadata table on the
normalized title, the overview column is rebuilt preferring the
preprocessed overview, and metadata poster paths are cleaned. -/

/-- A row of the preprocessed table as loaded by the engine. -/
structure PreRow where
  title : String
  overview : Option String
  val : String → ℚ

/-- A row of the secondary metadata table (only the columns the engine
keeps: title, poster path, overview). -/
structure MetaRow where
  title : String
  poster_path : Option String
  overview : Option String

/-- `str.strip().str.lower()` — the `title_clean` normalization. -/
def normalize_title (t : String) : String := pyLower (pyStrip t)

/-- `clean_poster` from `__init__` (lines 144-152): stringified null-ish
values and paths not starting with "/" become `None`.  A missing cell
(`NaN`) stringifies to "nan", which the null-ish list catches, so `none`
maps to `none`. -/
def clean_poster (p : Option String) : Option String :=
  match p with
  | none => none
  | some s =>
    if ["", "0", "nan", "none", "null"].contains (pyLower s) then none
    else if s.startsWith "/" then some s
    else none

/-- The overview rebuild of `__init__` (lines 135-140) for one row:
keep the preprocessed overview when it is a string whose strip is
non-empty, else take the metadata overview (itself possibly missing). -/
def merged_overview (pre meta : Option String) : Option String :=
  match pre with
  | some s => if pyStrip s ≠ "" then some s else meta
  | none => meta

/-- One merged row, from a preprocessed row and its metadata match (or
`none` when the left join found no match, leaving `NaN` cells). -/
def mk_merged_row (pre : PreRow) (meta : Option MetaRow) : MovieRow :=
  { title := pre.title
    title_clean := normalize_title pre.title
    poster_path := clean_poster (meta.bind (·.poster_path))
    overview := merged_overview pre.overview (meta.bind (·.overview))
    val := pre.val }

/-- The contribution of one preprocessed row to
`df_pre.merge(df_meta, on="title_clean", how="left")`: one output row
per metadata row sharing the normalized title, or a single row with
missing metadata cells when none does. -/
def merge_one (metas : List MetaRow) (pre : PreRow) : List MovieRow :=
  let ms := metas.filter
    (fun m => normalize_title m.title == normalize_title pre.title)
  match ms with
  | [] => [mk_merged_row pre none]
  | _ => ms.map (fun m => mk_merged_row pre (some m))

/-- The rows of `self.movies` after the merge, overview rebuild and
poster cleaning. -/
def build_rows (pres : List PreRow) (metas : List MetaRow) : List MovieRow :=
  pres.flatMap (merge_one metas)

/-- `_add_genre_label_column` for one row: comma-join the set genre
indicators, `"Unknown"` when the join is empty (`or "Unknown"`);
`row.get(g, 0)` reads 0 for a column absent from the table. -/
def genre_label (cols : List String) (row : MovieRow) : String :=
  let l := GENRE_COLUMNS.filter
    (fun g => (if cols.contains g then row.val g else 0) == 1)
  if (String.intercalate ", " l) = "" then "Unknown"
  else String.intercalate ", " l

/-! ## Concrete sample data

Small concrete instances of the data model, used to evaluate the
definitions at specific inputs. -/

/-- A network where every search request fails (timeout). -/
def net_err : String → HttpOutcome := fun _ => Except.error "timeout"

/-- A row whose only set genre indicator is Drama, with no local poster. -/
def drama_row : MovieRow :=
  { title := "Heat"
    title_clean := "heat"
    poster_path := none
    overview := some "a heist"
    val := fun g => if g = "Drama" then 1 else 0 }

/-- A one-row table whose column set contains just the Drama indicator. -/
def tbl1 : MovieTable := { cols := ["Drama"], rows := [drama_row] }

/-- A two-row corpus for the weighted-rating computation. -/
def vrows : List VoteRow := [{ vote_count := 0, vote_average := 15/2 },
                            { vote_count := 10, vote_average := 5 }]

/-- An age column with one negative parsed age and one missing age. -/
def ages_mixed : List (Option ℚ) := [some (-10), some 2, some 4, none]

/-- An age column of valid, non-negative parsed ages. -/
def ages_valid : List (Option ℚ) := [some 2, some 2, some 10, some 10]

/-- A preprocessed-table row with a non-empty overview. -/
def pre_row1 : PreRow :=
  { title := "Heat", overview := some "A heist.", val := fun _ => 0 }

/-- A metadata-table row for the same title with its own overview. -/
def meta_row1 : MetaRow :=
  { title := " HEAT ", poster_path := some "/heat.jpg",
    overview := some "Secondary text." }

/-! # Theorems -/

/-- Looking up a key in a cache right after inserting a binding: the new
binding wins at its own key, other keys are unchanged. -/
theorem cache_lookup_insert (c : PosterCache) (k k' : String) (v : Option String) :
    cache_lookup (cache_insert c k v) k' =
      if k = k' then some v else cache_lookup c k' := by
  by_cases h : k = k' <;>
    have hb : (k == k') = decide (k = k') := by simp [h]
  all_goals simp [cache_lookup, cache_insert, List.find?, hb, h]

/-- A cache hit short-circuits the poster loop body: cached value, same
cache, no HTTP request. -/
theorem resolve_poster_hit (net : String → HttpOutcome) (api_key : Option String)
    (cache : PosterCache) (row : MovieRow) (v : Option String)
    (h : cache_lookup cache row.title_clean = some v) :
    resolve_poster net api_key cache row = (v, cache, false) := by
  simp [resolve_poster, h]

/-- The poster loop body never changes an existing cache binding. -/
theorem resolve_poster_preserves (net : String → HttpOutcome)
    (api_key : Option String) (cache : PosterCache) (row : MovieRow)
    (k : String) (v : Option String) (h : cache_lookup cache k = some v) :
    cache_lookup (resolve_poster net api_key cache row).2.1 k = some v := by
  unfold resolve_poster
  cases hc : cache_lookup cache row.title_clean with
  | some w => simpa [hc] using h
  | none =>
    have hne : ¬ row.title_clean = k := by
      intro e; rw [e, h] at hc; cases hc
    cases hp : row.poster_path <;>
      simp [hc, hp, cache_lookup_insert, hne, h]

/-- The poster loop over a whole sample never changes an existing cache
binding. -/
theorem resolve_posters_preserves (net : String → HttpOutcome)
    (api_key : Option String) (rows : List MovieRow) (cache : PosterCache)
    (k : String) (v : Option String) (h : cache_lookup cache k = some v) :
    cache_lookup (resolve_posters net api_key cache rows).2 k = some v := by
  induction rows generalizing cache with
  | nil => simpa [resolve_posters] using h
  | cons r rest ih =>
    simpa [resolve_posters] using
      ih _ (resolve_poster_preserves net api_key cache r k v h)

/-- The poster loop produces exactly one output per sampled row. -/
theorem resolve_posters_length (net : String → HttpOutcome)
    (api_key : Option String) (cache : PosterCache) (rows : List MovieRow) :
    (resolve_posters net api_key cache rows).1.length = rows.length := by
  induction rows generalizing cache with
  | nil => simp [resolve_posters]
  | cons r rest ih => simp [resolve_posters, ih]

/-- C1.  For every row, `weighted_vote` equals the corpus mean rating `C`
when the row's vote count is 0, and otherwise equals
`(v/(v+m))·R + (m/(v+m))·C` with `m` the 80th-percentile vote count. -/
theorem spec_weighted_rating (rows : List VoteRow) (i : ℕ) (h : i < rows.length) :
    (rows[i].vote_count = 0 →
      (weighted_vote_column rows)[i]? = some (mean (rows.map (·.vote_average)))) ∧
    (rows[i].vote_count ≠ 0 →
      (weighted_vote_column rows)[i]? =
        some ((rows[i].vote_count /
                 (rows[i].vote_count + quantile (4/5) (rows.map (·.vote_count)))) *
                rows[i].vote_average +
              (quantile (4/5) (rows.map (·.vote_count)) /
                 (rows[i].vote_count + quantile (4/5) (rows.map (·.vote_count)))) *
                mean (rows.map (·.vote_average)))) := by
  constructor <;> intro hv <;>
    simp [weighted_vote_column, List.getElem?_map, List.getElem?_eq_getElem h,
      weighted_rating, hv]

/-- Witness for `spec_weighted_rating` at a concrete two-row corpus whose
first row has vote count 0. -/
theorem spec_weighted_rating_witness :
    0 < vrows.length ∧ vrows[0].vote_count = 0 ∧
    (weighted_vote_column vrows)[0]? = some (mean (vrows.map (·.vote_average))) :=
  ⟨by decide, rfl, (spec_weighted_rating vrows 0 (by decide)).1 rfl⟩

/-- C8.  Empty or whitespace-only input short-circuits the emotion
adapter to the fixed neutral result, without constructing or invoking the
classifier, and its mood is exactly the mood mapped from "neutral". -/
theorem spec_empty_text_neutral (classify : String → String × ℚ) (text : String)
    (h : pyStrip text = "") :
    detect_emotion_and_mood classify text =
      ({ raw_emotion := "neutral", score := "0.0", mood := "cozy" }, false) ∧
    lookupKey EMOTION_TO_MOOD "neutral" = some "cozy" :=
  ⟨by simp [detect_emotion_and_mood, h], by decide⟩

/-- Witness for `spec_empty_text_neutral` on a whitespace-only input. -/
theorem spec_empty_text_neutral_witness :
    pyStrip "   " = "" ∧
    (detect_emotion_and_mood (fun _ => ("joy", 1)) "   " =
        ({ raw_emotion := "neutral", score := "0.0", mood := "cozy" }, false) ∧
      lookupKey EMOTION_TO_MOOD "neutral" = some "cozy") :=
  ⟨by decide, spec_empty_text_neutral (fun _ => ("joy", 1)) "   " (by decide)⟩

/-- C7 counterexample.  When both the preprocessed and the secondary
overview are missing, the merged row's overview is the missing marker,
not any fixed placeholder string. -/
theorem spec_overview_placeholder_cex :
    (mk_merged_row { title := "Ghost", overview := none, val := fun _ => 0 }
        none).overview = none := rfl

/-- C7 amended.  The merged overview prefers the preprocessed overview
when it is a present, non-blank string, and otherwise falls back to the
secondary metadata overview — which may itself be missing; no
placeholder is substituted. -/
theorem spec_overview_pref_amended (pre : PreRow) (m : Option MetaRow) (s : String) :
    (pre.overview = some s → pyStrip s ≠ "" →
      (mk_merged_row pre m).overview = some s) ∧
    (pre.overview = some s → pyStrip s = "" →
      (mk_merged_row pre m).overview = m.bind (·.overview)) ∧
    (pre.overview = none →
      (mk_merged_row pre m).overview = m.bind (·.overview)) := by
  refine ⟨?_, ?_, ?_⟩ <;> intros h1 <;>
    first
    | (intro h2; simp [mk_merged_row, merged_overview, h1, h2])
    | simp [mk_merged_row, merged_overview, h1]

/-- Witness for `spec_overview_pref_amended`: a present, non-blank
preprocessed overview wins over the secondary one. -/
theorem spec_overview_pref_amended_witness :
    pre_row1.overview = some "A heist." ∧ pyStrip "A heist." ≠ "" ∧
    (mk_merged_row pre_row1 (some meta_row1)).overview = some "A heist." :=
  ⟨rfl, by decide,
    (spec_overview_pref_amended pre_row1 (some meta_row1) "A heist.").1 rfl (by decide)⟩

/-- C9.  An emotion that normalizes to a key outside `EMOTION_GENRE_MAP`
makes `recommend_by_emotion` run with the fallback genre list
`["Drama"]`; the call is a total function of its inputs (it never
raises), and its result is exactly the `["Drama"]`-filtered
recommendation. -/
theorem spec_unknown_emotion_fallback (net : String → HttpOutcome)
    (api_key : Option String) (shuffle : List MovieRow → List MovieRow)
    (table : MovieTable) (cache : PosterCache) (emotion : String) (n : ℕ)
    (h : lookupKey EMOTION_GENRE_MAP (pyStrip (pyLower emotion)) = none) :
    recommend_by_emotion net api_key shuffle table cache emotion n =
      recommend_with_genres net api_key shuffle table cache ["Drama"] n := by
  simp [recommend_by_emotion, mapped_genres, h]

/-- Witness for `spec_unknown_emotion_fallback` at the unmapped emotion
"bored". -/
theorem spec_unknown_emotion_fallback_witness :
    lookupKey EMOTION_GENRE_MAP (pyStrip (pyLower "bored")) = none ∧
    recommend_by_emotion net_err none id tbl1 [] "bored" 3 =
      recommend_with_genres net_err none id tbl1 [] ["Drama"] 3 :=
  ⟨by decide,
    spec_unknown_emotion_fallback net_err none id tbl1 [] "bored" 3 (by decide)⟩

/-- C3 counterexample.  A corpus of four rows with perfectly valid,
past release dates (parsed ages 2, 2, 10, 10) leaves the final
`movie_age` column — after the correction step *and* the z-score
standardization the Preprocessor applies to it — equal to
`[-1, -1, 1, 1]`: the output table contains a negative `movie_age`.
The scale 4 is sklearn's standard deviation here: `4 * 4` is the
population variance of the corrected column, and `4 > 0`. -/
theorem spec_movie_age_nonneg_cex :
    standardized_ages ages_valid 4 = [-1, -1, 1, 1] ∧
    (4 : ℚ) * 4 = popVariance (corrected_ages ages_valid) ∧
    (0 : ℚ) < 4 ∧ (-1 : ℚ) < 0 := by
  refine ⟨?_, ?_, by norm_num, by norm_num⟩ <;>
    norm_num [standardized_ages, popVariance, corrected_ages, fill_missing_ages,
      median_parsed_ages, median_filled_ages, median, sortAsc, insort, ages_valid,
      mean, List.filterMap]

/-- C3 amended.  After the correction step (lines 61-62) and *before*
standardization, every `movie_age` is non-negative — provided the median
of the filled age column (the replacement value line 62 uses) is itself
non-negative. -/
theorem spec_movie_age_nonneg_amended (ages0 : List (Option ℚ))
    (h : 0 ≤ median_filled_ages ages0) :
    (corrected_ages ages0).all (fun a => decide (0 ≤ a)) = true := by
  rw [List.all_eq_true]
  intro a ha
  rw [decide_eq_true_eq]
  simp only [corrected_ages, List.mem_map] at ha
  obtain ⟨b, hb, hab⟩ := ha
  by_cases hneg : b < 0
  · rw [← hab]; simpa [hneg] using h
  · rw [← hab]; simpa [hneg] using le_of_not_lt hneg

/-- Witness for `spec_movie_age_nonneg_amended` on a corpus whose filled
median is non-negative. -/
theorem spec_movie_age_nonneg_amended_witness :
    (0 : ℚ) ≤ median_filled_ages ages_mixed ∧
    (corrected_ages ages_mixed).all (fun a => decide (0 ≤ a)) = true :=
  ⟨by norm_num [median_filled_ages, fill_missing_ages, median_parsed_ages, median,
      sortAsc, insort, ages_mixed, List.filterMap],
   spec_movie_age_nonneg_amended ages_mixed
     (by norm_num [median_filled_ages, fill_missing_ages, median_parsed_ages, median,
        sortAsc, insort, ages_mixed, List.filterMap])⟩

/-- C4 counterexample.  On the corpus with parsed ages −10, 2, 4 and one
missing age, the code maps the column to `[2, 2, 4, 2]` — the negative
age (index 0) and the missing age (index 3) are both replaced by 2 —
whereas the median computed only over the valid, non-negative ages
{2, 4} is 3.  The replacement medians the code uses are computed over
all parsed (resp. filled) ages, negative ones included. -/
theorem spec_age_median_cex :
    corrected_ages ages_mixed = [2, 2, 4, 2] ∧
    median_valid_nonneg_ages ages_mixed = 3 := by
  constructor <;>
    norm_num [corrected_ages, fill_missing_ages, median_parsed_ages,
      median_filled_ages, median_valid_nonneg_ages, median, sortAsc, insort,
      ages_mixed, List.filterMap, List.filter]

/-- C4 amended.  A missing age is replaced by the median of the parsed
ages (negative ones included) — and, should that median itself be
negative, subsequently by the median of the filled column; a negative
parsed age is replaced by the median of the filled column (its negative
entries included). -/
theorem spec_age_median_amended (ages0 : List (Option ℚ)) (i : ℕ) (a : ℚ)
    (h : i < ages0.length) :
    (ages0[i] = none →
      (corrected_ages ages0)[i]? =
        some (if median_parsed_ages ages0 < 0 then median_filled_ages ages0
              else median_parsed_ages ages0)) ∧
    (ages0[i] = some a →
      (corrected_ages ages0)[i]? =
        some (if a < 0 then median_filled_ages ages0 else a)) := by
  constructor <;> intro hv <;>
    simp [corrected_ages, fill_missing_ages, List.getElem?_map,
      List.getElem?_eq_getElem h, hv]

/-- Witness for `spec_age_median_amended` at the missing entry of the
mixed corpus. -/
theorem spec_age_median_amended_witness :
    3 < ages_mixed.length ∧ ages_mixed.get ⟨3, by decide⟩ = none ∧
    (corrected_ages ages_mixed)[3]? =
      some (if median_parsed_ages ages_mixed < 0 then median_filled_ages ages_mixed
            else median_parsed_ages ages_mixed) :=
  ⟨by decide, rfl, (spec_age_median_amended ages_mixed 3 0 (by decide)).1 rfl⟩

/-- The number of records returned by the engine equals
`min n (number of matching records)`, given that the sampling reordering
preserves the number of filtered rows. -/
theorem recommend_with_genres_length (net : String → HttpOutcome)
    (api_key : Option String) (shuffle : List MovieRow → List MovieRow)
    (table : MovieTable) (cache : PosterCache) (genres : List String) (n : ℕ)
    (hs : (shuffle (table.rows.filter (row_matches table.cols genres))).length =
          (table.rows.filter (row_matches table.cols genres)).length) :
    (recommend_with_genres net api_key shuffle table cache genres n).1.length =
      min n (table.rows.filter (row_matches table.cols genres)).length := by
  unfold recommend_with_genres
  by_cases hf : table.rows.filter (row_matches table.cols genres) = []
  · simp [hf]
  · have hb : (table.rows.filter (row_matches table.cols genres)).isEmpty = false := by
      rcases hl : table.rows.filter (row_matches table.cols genres) with _ | ⟨r, rest⟩
      · exact absurd hl hf
      · rfl
    simp only [hb, Bool.false_eq_true, if_false, List.length_map, List.length_zip,
      resolve_posters_length, List.length_take, hs, Nat.min_self]
    omega

/-- C2 counterexample.  With `n = 0` and a table containing a record that
matches the mapped genre set for "sad", the result is empty even though
a record matches: "length 0 iff no record matches" fails for n = 0. -/
theorem spec_sampling_bound_cex :
    (recommend_by_emotion net_err none id tbl1 [] "sad" 0).1.length = 0 ∧
    (tbl1.rows.filter (row_matches tbl1.cols (mapped_genres "sad"))).length = 1 :=
  ⟨by decide, by decide⟩

/-- C2 amended.  `recommend_by_emotion` returns exactly
`min n (number of matching records)` results — in particular at most `n`
— and the result is empty iff `n = 0` or no record matches the mapped
genre set.  The sampling is modelled by an arbitrary permutation of the
filtered rows. -/
theorem spec_sampling_bound_amended (net : String → HttpOutcome)
    (api_key : Option String) (shuffle : List MovieRow → List MovieRow)
    (table : MovieTable) (cache : PosterCache) (emotion : String) (n : ℕ)
    (hs : (shuffle (table.rows.filter
            (row_matches table.cols (mapped_genres emotion)))).Perm
          (table.rows.filter (row_matches table.cols (mapped_genres emotion)))) :
    (recommend_by_emotion net api_key shuffle table cache emotion n).1.length =
      min n (table.rows.filter
              (row_matches table.cols (mapped_genres emotion))).length ∧
    ((recommend_by_emotion net api_key shuffle table cache emotion n).1 = [] ↔
      n = 0 ∨
        table.rows.filter (row_matches table.cols (mapped_genres emotion)) = []) := by
  have hlen : (recommend_by_emotion net api_key shuffle table cache emotion n).1.length =
      min n (table.rows.filter
              (row_matches table.cols (mapped_genres emotion))).length :=
    recommend_with_genres_length net api_key shuffle table cache
      (mapped_genres emotion) n hs.length_eq
  refine ⟨hlen, ?_⟩
  rw [← List.length_eq_zero, hlen, Nat.min_eq_zero_iff, List.length_eq_zero]

/-- Witness for `spec_sampling_bound_amended` on the one-row Drama table
with n = 2. -/
theorem spec_sampling_bound_amended_witness :
    (id (tbl1.rows.filter (row_matches tbl1.cols (mapped_genres "sad")))).Perm
      (tbl1.rows.filter (row_matches tbl1.cols (mapped_genres "sad"))) ∧
    ((recommend_by_emotion net_err none id tbl1 [] "sad" 2).1.length =
        min 2 (tbl1.rows.filter (row_matches tbl1.cols (mapped_genres "sad"))).length ∧
      ((recommend_by_emotion net_err none id tbl1 [] "sad" 2).1 = [] ↔
        2 = 0 ∨ tbl1.rows.filter (row_matches tbl1.cols (mapped_genres "sad")) = [])) :=
  ⟨List.Perm.refl _,
    spec_sampling_bound_amended net_err none id tbl1 [] "sad" 2 (List.Perm.refl _)⟩

/-- A sampled row whose normalized title is already cached receives the
cached value, with no HTTP request, wherever it sits in the sample. -/
theorem resolve_posters_hit_at (net : String → HttpOutcome)
    (api_key : Option String) (rows : List MovieRow) (cache : PosterCache)
    (k : String) (v : Option String) (i : ℕ)
    (h : cache_lookup cache k = some v) (hi : i < rows.length)
    (hk : rows[i].title_clean = k) :
    (resolve_posters net api_key cache rows).1[i]? = some (v, false) := by
  induction rows generalizing cache i with
  | nil => exact absurd hi (Nat.not_lt_zero i)
  | cons r rest ih =>
    cases i with
    | zero =>
      have hr : cache_lookup cache r.title_clean = some v := by
        have : r.title_clean = k := by simpa using hk
        rw [this]; exact h
      simp [resolve_posters, resolve_poster_hit net api_key cache r v hr]
    | succ j =>
      have hi' : j < rest.length := by simpa using hi
      have hk' : rest[j].title_clean = k := by simpa using hk
      have h' := resolve_poster_preserves net api_key cache r k v h
      simpa [resolve_posters] using ih _ j h' hi' hk'

/-- C5.  Once the cache maps a normalized title to a value (a URL or the
absence marker), a later sampled record with the same normalized title
receives exactly that value with no new HTTP request, and after the
whole poster loop the cache still maps the title to the same value — the
binding is never overwritten. -/
theorem spec_poster_cache (net : String → HttpOutcome) (api_key : Option String)
    (cache : PosterCache) (rows : List MovieRow) (k : String)
    (v : Option String) (i : ℕ)
    (h : cache_lookup cache k = some v) (hi : i < rows.length)
    (hk : rows[i].title_clean = k) :
    (resolve_posters net api_key cache rows).1[i]? = some (v, false) ∧
    cache_lookup (resolve_posters net api_key cache rows).2 k = some v :=
  ⟨resolve_posters_hit_at net api_key rows cache k v i h hi hk,
   resolve_posters_preserves net api_key rows cache k v h⟩

/-- Witness for `spec_poster_cache`: "heat" is cached, and the sampled
Drama row with that normalized title reuses the cached URL. -/
theorem spec_poster_cache_witness :
    cache_lookup [("heat", some "heat-url")] "heat" = some (some "heat-url") ∧
    0 < [drama_row].length ∧
    ([drama_row].get ⟨0, by decide⟩).title_clean = "heat" ∧
    ((resolve_posters net_err none [("heat", some "heat-url")] [drama_row]).1[0]? =
        some (some "heat-url", false) ∧
      cache_lookup
          (resolve_posters net_err none [("heat", some "heat-url")] [drama_row]).2
          "heat" = some (some "heat-url")) :=
  ⟨by decide, by decide, rfl,
    spec_poster_cache net_err none [("heat", some "heat-url")] [drama_row] "heat"
      (some "heat-url") 0 (by decide) (by decide) rfl⟩

/-- C6.  A failed per-title TMDB lookup (HTTP error, timeout or
malformed response, all modelled as `Except.error`) is converted to the
absence marker rather than surfaced: `_fetch_tmdb_poster_url` returns
`None`, and the poster loop records the absence marker in the cache for
the row's normalized title. -/
theorem spec_fetch_failure_absence (net : String → HttpOutcome)
    (api_key : Option String) (cache : PosterCache) (row : MovieRow) (e : String)
    (hc : cache_lookup cache row.title_clean = none)
    (hp : row.poster_path = none)
    (hn : net row.title = Except.error e) :
    fetch_tmdb_poster_url api_key (Except.error e) = none ∧
    resolve_poster net api_key cache row =
      (none, cache_insert cache row.title_clean none, key_configured api_key) := by
  have hf : fetch_tmdb_poster_url api_key (Except.error e) = none := by
    unfold fetch_tmdb_poster_url
    cases hk : key_configured api_key <;> simp [hk]
  refine ⟨hf, ?_⟩
  unfold resolve_poster
  simp [hc, hp, hn, hf]

/-- Witness for `spec_fetch_failure_absence`: cold cache, no local
poster path, failing network, configured key. -/
theorem spec_fetch_failure_absence_witness :
    cache_lookup [] drama_row.title_clean = none ∧
    drama_row.poster_path = none ∧
    net_err drama_row.title = Except.error "timeout" ∧
    (fetch_tmdb_poster_url (some "KEY") (Except.error "timeout") = none ∧
      resolve_poster net_err (some "KEY") [] drama_row =
        (none, cache_insert [] drama_row.title_clean none,
          key_configured (some "KEY"))) :=
  ⟨rfl, rfl, rfl,
    spec_fetch_failure_absence net_err (some "KEY") [] drama_row "timeout"
      rfl rfl rfl⟩

/-- C10.  With no configured API credential, the per-title lookup
short-circuits to the absence marker for every network outcome, the
poster loop never issues an HTTP request, and `recommend_by_emotion`
still returns its full `min n (number of matching records)` results:
a missing credential degrades only poster backfill. -/
theorem spec_missing_key_degrades (net : String → HttpOutcome)
    (api_key : Option String) (shuffle : List MovieRow → List MovieRow)
    (table : MovieTable) (cache : PosterCache) (row : MovieRow)
    (emotion : String) (n : ℕ) (outcome : HttpOutcome)
    (hk : key_configured api_key = false)
    (hs : (shuffle (table.rows.filter
            (row_matches table.cols (mapped_genres emotion)))).Perm
          (table.rows.filter (row_matches table.cols (mapped_genres emotion)))) :
    fetch_tmdb_poster_url api_key outcome = none ∧
    (resolve_poster net api_key cache row).2.2 = false ∧
    (recommend_by_emotion net api_key shuffle table cache emotion n).1.length =
      min n (table.rows.filter
              (row_matches table.cols (mapped_genres emotion))).length := by
  refine ⟨by simp [fetch_tmdb_poster_url, hk], ?_, ?_⟩
  · unfold resolve_poster
    cases hc : cache_lookup cache row.title_clean with
    | some w => simp [hc]
    | none => cases hp : row.poster_path <;> simp [hc, hp, hk]
  · exact recommend_with_genres_length net api_key shuffle table cache
      (mapped_genres emotion) n hs.length_eq

/-- Witness for `spec_missing_key_degrades`: unset key, one matching
record, n = 1. -/
theorem spec_missing_key_degrades_witness :
    key_configured none = false ∧
    (id (tbl1.rows.filter (row_matches tbl1.cols (mapped_genres "sad")))).Perm
      (tbl1.rows.filter (row_matches tbl1.cols (mapped_genres "sad"))) ∧
    (fetch_tmdb_poster_url none (Except.error "timeout") = none ∧
      (resolve_poster net_err none [] drama_row).2.2 = false ∧
      (recommend_by_emotion net_err none id tbl1 [] "sad" 1).1.length =
        min 1 (tbl1.rows.filter (row_matches tbl1.cols (mapped_genres "sad"))).length) :=
  ⟨rfl, List.Perm.refl _,
    spec_missing_key_degrades net_err none id tbl1 [] drama_row "sad" 1
      (Except.error "timeout") rfl (List.Perm.refl _)⟩

end MovieAI
